import Mathlib

/-!
Verification of the Vikshit Bharat complaint-lifecycle backend (`server.js`).

The embedding below translates the complaint lifecycle routes of the Express
server into pure Lean functions over an explicit database state:

* `createComplaint`     — POST /api/problems
* `assignWorker`        — POST /api/admin/problems/:problem_id/assign
* `markComplete`        — POST /api/admin/problems/:problem_id/complete
* `patchProblem`        — PATCH /api/admin/problems/:problem_id
* `listProblemsAdmin`   — GET /api/admin/problems
* `getDashboardAnalytics` — GET /api/analytics/dashboard

SQL timestamps are modelled as `Nat` seconds (`DB.now` plays the role of
`CURRENT_TIMESTAMP` for the request being processed), numeric coordinates as
`Rat`, and each route returns `Except ApiError …` mirroring the early-return
error responses of the handlers, in the order the handler performs its checks.
-/

/-- Error taxonomy of the HTTP handlers: 400 validation responses, 403
authorization responses, 404 not-found responses. -/
inductive ApiError where
  | validation : String → ApiError
  | authorization : String → ApiError
  | notFound : String → ApiError
deriving DecidableEq, Repr

/-- A row of the `problems` table, restricted to the columns the lifecycle
routes read or write. -/
structure Problem where
  id : Nat
  user_id : Nat
  problem_categories : List String
  others_text : Option String
  user_image : String
  user_image_mimetype : String
  admin_image : Option String
  admin_image_mimetype : Option String
  latitude : Rat
  longitude : Rat
  status : String
  priority : String
  assigned_worker_id : Option Nat
  assigned_department : Option String
  estimated_completion : Option Nat
  completion_notes : Option String
  created_at : Nat
  updated_at : Nat
deriving DecidableEq, Repr

/-- A row of the `problem_status_history` table. -/
structure HistoryEntry where
  problem_id : Nat
  status : String
  updated_by_id : Nat
  notes : Option String
  created_at : Nat
deriving DecidableEq, Repr

/-- A row of the `workers` table (the per-worker ledger counters). -/
structure Worker where
  user_id : Nat
  total_assigned : Nat
  total_completed : Nat
deriving DecidableEq, Repr

/-- A row of the `users` table, restricted to what the lifecycle routes use. -/
structure User where
  id : Nat
  role : String
  department : Option String
deriving DecidableEq, Repr

/-- The authenticated requester (`req.user` decoded from the JWT: id and role;
`department` is carried along as the handlers read `req.user.department`). -/
structure Actor where
  id : Nat
  role : String
  department : Option String
deriving DecidableEq, Repr

/-- The database state touched by the lifecycle routes, plus the request-time
clock standing in for SQL `CURRENT_TIMESTAMP`. -/
structure DB where
  problems : List Problem
  history : List HistoryEntry
  workers : List Worker
  users : List User
  nextId : Nat
  now : Nat
deriving DecidableEq, Repr

/-- Roles accepted by the complete/patch/list routes:
`['district-magistrate', 'department-head', 'field-worker']`. -/
def adminRoles : List String := ["district-magistrate", "department-head", "field-worker"]

/-- Roles accepted by the assign route and the dashboard:
`['district-magistrate', 'department-head']`. -/
def assignRoles : List String := ["district-magistrate", "department-head"]

/-- `listPre pat hay` decides whether `pat` is an initial segment of `hay`. -/
def listPre : List Char → List Char → Bool
  | [], _ => true
  | _ :: _, [] => false
  | a :: as, b :: bs => a == b && listPre as bs

/-- `listInf pat hay` decides whether `pat` occurs contiguously in `hay`. -/
def listInf (pat hay : List Char) : Bool :=
  match hay with
  | [] => pat.isEmpty
  | _ :: t => listPre pat hay || listInf pat t

/-- SQL `col LIKE '%pat%'` on a text value: substring containment. -/
def strContains (hay pat : String) : Bool :=
  listInf pat.toList hay.toList

/-- The department-head row filter used by GET /api/admin/problems and the
dashboard: `p.assigned_department = $1 OR p.problem_categories::text LIKE
'%Garbage%' OR … '%सफाई%' OR … '%Waste%'`.  The `LIKE` on the array's text
rendering holds exactly when some category label contains the pattern (the
patterns contain no quote, comma or brace, so a match cannot straddle two
array elements). -/
def deptScope (dept : Option String) (p : Problem) : Bool :=
  (match dept with
   | some d => p.assigned_department == some d
   | none => false)
  || p.problem_categories.any (fun c => strContains c "Garbage")
  || p.problem_categories.any (fun c => strContains c "सफाई")
  || p.problem_categories.any (fun c => strContains c "Waste")

/-- The body of POST /api/problems after transport decoding.  `file = none`
models a missing upload; `rawCategories = none` models an absent
`problem_categories` field and `some none` a string that fails `JSON.parse`;
`latitude`/`longitude = none` model an absent or non-numeric value (both are
rejected before any write). -/
structure CreateReq where
  reporter : Nat
  file : Option (String × String)
  rawCategories : Option (Option (List String))
  latitude : Option Rat
  longitude : Option Rat
  others_text : Option String
  priority : String
deriving DecidableEq, Repr

/-- POST /api/problems: validations in handler order (file present; fields
present; latitude range; longitude range; categories parse), then one
`problems` insert with status `'not completed'` followed by one
`problem_status_history` insert. -/
def createComplaint (db : DB) (req : CreateReq) : Except ApiError (DB × Problem) :=
  match req.file with
  | none => .error (.validation "Image file is required")
  | some (img, mime) =>
    match req.rawCategories, req.latitude, req.longitude with
    | some rawCats, some lat, some lng =>
      if lat < -90 ∨ lat > 90 then
        .error (.validation "Latitude must be between -90 and 90")
      else if lng < -180 ∨ lng > 180 then
        .error (.validation "Longitude must be between -180 and 180")
      else
        match rawCats with
        | none => .error (.validation "Invalid problem_categories format")
        | some cats =>
          let p : Problem :=
            { id := db.nextId
              user_id := req.reporter
              problem_categories := cats
              others_text := req.others_text
              user_image := img
              user_image_mimetype := mime
              admin_image := none
              admin_image_mimetype := none
              latitude := lat
              longitude := lng
              status := "not completed"
              priority := req.priority
              assigned_worker_id := none
              assigned_department := none
              estimated_completion := none
              completion_notes := none
              created_at := db.now
              updated_at := db.now }
          let h : HistoryEntry :=
            { problem_id := p.id
              status := "not completed"
              updated_by_id := req.reporter
              notes := some "Problem submitted"
              created_at := db.now }
          .ok ({ db with
                  problems := db.problems ++ [p]
                  history := db.history ++ [h]
                  nextId := db.nextId + 1 }, p)
    | _, _, _ =>
      .error (.validation "problem_categories, latitude, and longitude are required")

/-- The body of POST /api/admin/problems/:problem_id/complete. -/
structure CompleteReq where
  actor : Actor
  problem_id : Nat
  file : Option (String × String)
  completion_notes : Option String
deriving DecidableEq, Repr

/-- POST /api/admin/problems/:problem_id/complete: role whitelist check, file
check, then `UPDATE problems SET status='completed', admin_image…,
completion_notes, updated_at WHERE id = :problem_id` (404 when no row), then
one history insert.  No `workers` row is touched by this handler. -/
def markComplete (db : DB) (req : CompleteReq) : Except ApiError (DB × Problem) :=
  if adminRoles.contains req.actor.role then
    match req.file with
    | none => .error (.validation "Completed image file is required")
    | some (img, mime) =>
      match db.problems.find? (fun p => p.id == req.problem_id) with
      | none => .error (.notFound "Problem not found")
      | some p =>
        let p' : Problem :=
          { p with
              status := "completed"
              admin_image := some img
              admin_image_mimetype := some mime
              completion_notes := req.completion_notes
              updated_at := db.now }
        let h : HistoryEntry :=
          { problem_id := req.problem_id
            status := "completed"
            updated_by_id := req.actor.id
            notes := some (req.completion_notes.getD "Problem marked as completed")
            created_at := db.now }
        .ok ({ db with
                problems := db.problems.map
                  (fun q => if q.id == req.problem_id then p' else q)
                history := db.history ++ [h] }, p')
  else .error (.authorization "Unauthorized access")

/-- The `workers` counter bump of the assign route:
`UPDATE workers SET total_assigned = total_assigned + 1 WHERE user_id = $1`. -/
def bumpAssigned (worker_id : Nat) (w : Worker) : Worker :=
  if w.user_id == worker_id then { w with total_assigned := w.total_assigned + 1 } else w

/-- POST /api/admin/problems/:problem_id/assign: role whitelist check, then
`UPDATE problems SET assigned_worker_id, assigned_department,
estimated_completion, status = 'in-progress', updated_at WHERE id = …` (404
when no row), then one history insert, then the worker-counter update. -/
def assignWorker (db : DB) (actor : Actor) (problem_id worker_id : Nat)
    (department : Option String) (eta : Option Nat) : Except ApiError (DB × Problem) :=
  if assignRoles.contains actor.role then
    match db.problems.find? (fun p => p.id == problem_id) with
    | none => .error (.notFound "Problem not found")
    | some p =>
      let p' : Problem :=
        { p with
            assigned_worker_id := some worker_id
            assigned_department := department
            estimated_completion := eta
            status := "in-progress"
            updated_at := db.now }
      let h : HistoryEntry :=
        { problem_id := problem_id
          status := "in-progress"
          updated_by_id := actor.id
          notes := some ("Worker assigned: " ++ toString worker_id)
          created_at := db.now }
      .ok ({ db with
              problems := db.problems.map
                (fun q => if q.id == problem_id then p' else q)
              history := db.history ++ [h]
              workers := db.workers.map (bumpAssigned worker_id) }, p')
  else .error (.authorization "Unauthorized access")

/-- PATCH /api/admin/problems/:problem_id: role whitelist check, dynamic
`UPDATE` of the supplied fields plus `updated_at` (404 when no row), then a
history insert executed whenever a `status` value was supplied in the body. -/
def patchProblem (db : DB) (actor : Actor) (problem_id : Nat)
    (status priority notes : Option String) : Except ApiError (DB × Problem) :=
  if adminRoles.contains actor.role then
    match db.problems.find? (fun p => p.id == problem_id) with
    | none => .error (.notFound "Problem not found")
    | some p =>
      let p' : Problem :=
        { p with
            status := status.getD p.status
            priority := priority.getD p.priority
            updated_at := db.now }
      let db' : DB :=
        { db with
            problems := db.problems.map
              (fun q => if q.id == problem_id then p' else q) }
      match status with
      | some s =>
        let h : HistoryEntry :=
          { problem_id := problem_id
            status := s
            updated_by_id := actor.id
            notes := some (notes.getD ("Status updated to " ++ s))
            created_at := db.now }
        .ok ({ db' with history := db.history ++ [h] }, p')
      | none => .ok (db', p')
  else .error (.authorization "Unauthorized access")

/-- GET /api/admin/problems: role whitelist, then the role-dependent row
filter (department heads get `deptScope`, field workers their own assigned
rows, the district magistrate everything). -/
def listProblemsAdmin (db : DB) (actor : Actor) : Except ApiError (List Problem) :=
  if adminRoles.contains actor.role then
    if actor.role == "department-head" then
      .ok (db.problems.filter (deptScope actor.department))
    else if actor.role == "field-worker" then
      .ok (db.problems.filter (fun p => p.assigned_worker_id == some actor.id))
    else
      .ok db.problems
  else .error (.authorization "Unauthorized access")

/-- The dashboard's scope filter: department heads are restricted by
`deptScope`, the district magistrate sees every row. -/
def dashScope (actor : Actor) (p : Problem) : Bool :=
  if actor.role == "department-head" then deptScope actor.department p else true

/-- SQL `EXTRACT(DAY FROM (updated_at - created_at))`: whole days of the
interval, on timestamps in seconds. -/
def extractDays (updated created : Nat) : Nat :=
  (updated - created) / 86400

/-- The JSON object returned by GET /api/analytics/dashboard (the
`recentComplaints` list is omitted: it is a raw row echo). -/
structure Analytics where
  totalComplaints : Nat
  pendingComplaints : Nat
  inProgressComplaints : Nat
  completedComplaints : Nat
  avgResolutionDays : Rat
  categoryBreakdown : List (String × Nat)
deriving DecidableEq, Repr

/-- `unnest(problem_categories) … GROUP BY category` with counts: one bucket
per distinct label occurring in the scoped rows. -/
def categoryBreakdown (rows : List Problem) : List (String × Nat) :=
  let cats := rows.foldr (fun p acc => p.problem_categories ++ acc) []
  cats.eraseDups.map (fun c => (c, cats.count c))

/-- GET /api/analytics/dashboard: role check, then `COUNT(*)` aggregates with
status filters, `COALESCE(AVG(… EXTRACT(DAY …)), 0)` over completed rows, and
the category breakdown, all over the scoped row set. -/
def getDashboardAnalytics (db : DB) (actor : Actor) : Except ApiError Analytics :=
  if assignRoles.contains actor.role then
    let rows := db.problems.filter (dashScope actor)
    let completed := rows.filter (fun p => p.status == "completed")
    let avg : Rat :=
      if completed.length == 0 then 0
      else (((completed.map (fun p => extractDays p.updated_at p.created_at)).sum : Nat) : Rat)
             / (completed.length : Rat)
    .ok
      { totalComplaints := rows.length
        pendingComplaints := (rows.filter (fun p => p.status == "not completed")).length
        inProgressComplaints := (rows.filter (fun p => p.status == "in-progress")).length
        completedComplaints := completed.length
        avgResolutionDays := avg
        categoryBreakdown := categoryBreakdown rows }
  else .error (.authorization "Unauthorized access")

/-- State left behind by a route outcome: the updated database on success, the
untouched one on an error response. -/
def runDB (db : DB) (r : Except ApiError (DB × Problem)) : DB :=
  match r with
  | .ok (db', _) => db'
  | .error _ => db

/-- Whether a route outcome was a success response. -/
def exceptOk {α : Type} : Except ApiError α → Bool
  | .ok _ => true
  | .error _ => false

/-- The data-model invariant of the spec: every completed complaint carries a
resolver-submitted completion image. -/
def completedHasEvidence (db : DB) : Bool :=
  db.problems.all (fun p => p.status != "completed" || p.admin_image.isSome)

/-- The `total_assigned` counter of the ledger row for a user, when one
exists. -/
def workerAssigned (db : DB) (uid : Nat) : Option Nat :=
  (db.workers.find? (fun w => w.user_id == uid)).map (fun w => w.total_assigned)

/-- Fallback-based extraction of the returned problem of a successful route
outcome (used to state concrete witnesses). -/
def probOf (r : Except ApiError (DB × Problem)) (dflt : Problem) : Problem :=
  match r with
  | .ok (_, p) => p
  | .error _ => dflt

lemma bumpAssigned_user_id (wid : Nat) (w : Worker) :
    (bumpAssigned wid w).user_id = w.user_id := by
  unfold bumpAssigned
  split <;> rfl

lemma find?_map_bumpAssigned (ws : List Worker) (wid uid : Nat) :
    (ws.map (bumpAssigned wid)).find? (fun w => w.user_id == uid)
      = (ws.find? (fun w => w.user_id == uid)).map (bumpAssigned wid) := by
  induction ws with
  | nil => rfl
  | cons w ws ih =>
    simp only [List.map_cons, List.find?_cons]
    rw [bumpAssigned_user_id]
    cases h : (w.user_id == uid) with
    | true => simp
    | false => simpa using ih

lemma assignWorker_ok_shape (db : DB) (actor : Actor) (pid wid : Nat)
    (dep : Option String) (eta : Option Nat) (db' : DB) (p' : Problem)
    (hok : assignWorker db actor pid wid dep eta = .ok (db', p')) :
    p'.status = "in-progress" ∧
    db'.problems = db.problems.map (fun q => if q.id == pid then p' else q) ∧
    db'.workers = db.workers.map (bumpAssigned wid) := by
  unfold assignWorker at hok
  split at hok
  · split at hok
    · exact absurd hok (by simp)
    · simp only [Except.ok.injEq, Prod.mk.injEq] at hok
      obtain ⟨hdb, hp⟩ := hok
      subst hdb
      subst hp
      exact ⟨rfl, rfl, rfl⟩
  · exact absurd hok (by simp)

lemma markComplete_ok_shape (db : DB) (creq : CompleteReq) (db' : DB) (p' : Problem)
    (hok : markComplete db creq = .ok (db', p')) :
    p'.status = "completed" ∧ p'.admin_image.isSome = true ∧
    db'.problems = db.problems.map (fun q => if q.id == creq.problem_id then p' else q) ∧
    db'.workers = db.workers := by
  unfold markComplete at hok
  split at hok
  · split at hok
    · exact absurd hok (by simp)
    · split at hok
      · exact absurd hok (by simp)
      · simp only [Except.ok.injEq, Prod.mk.injEq] at hok
        obtain ⟨hdb, hp⟩ := hok
        subst hdb
        subst hp
        exact ⟨rfl, rfl, rfl, rfl⟩
  · exact absurd hok (by simp)

lemma createComplaint_ok_shape (db : DB) (req : CreateReq) (db' : DB) (p : Problem)
    (hok : createComplaint db req = .ok (db', p)) :
    p.status = "not completed" ∧ p.id = db.nextId ∧ p.admin_image = none ∧
    db'.problems = db.problems ++ [p] ∧
    db'.history = db.history ++
      [⟨db.nextId, "not completed", req.reporter, some "Problem submitted", db.now⟩] ∧
    db'.workers = db.workers := by
  unfold createComplaint at hok
  split at hok
  · exact absurd hok (by simp)
  · split at hok
    · split at hok
      · exact absurd hok (by simp)
      · split at hok
        · exact absurd hok (by simp)
        · split at hok
          · exact absurd hok (by simp)
          · simp only [Except.ok.injEq, Prod.mk.injEq] at hok
            obtain ⟨hdb, hp⟩ := hok
            subst hdb
            subst hp
            exact ⟨rfl, rfl, rfl, rfl, rfl, rfl⟩
    · exact absurd hok (by simp)

/-- C5: under the preconditions that the complaint exists and is not already
completed and that the target worker exists with role field-worker (and has a
ledger row), a successful assign-worker operation increments exactly that
worker's `total_assigned` counter by exactly 1. -/
theorem C5_assign_increments_total_assigned
    (db : DB) (actor : Actor) (pid wid : Nat) (dep : Option String) (eta : Option Nat)
    (db' : DB) (p' : Problem) (n : Nat)
    (hworker : workerAssigned db wid = some n)
    (_hrole : db.users.any (fun u => u.id == wid && u.role == "field-worker") = true)
    (_hnotdone : ∀ p ∈ db.problems, p.id = pid → p.status ≠ "completed")
    (hok : assignWorker db actor pid wid dep eta = .ok (db', p')) :
    workerAssigned db' wid = some (n + 1) ∧
    ∀ uid, uid ≠ wid → workerAssigned db' uid = workerAssigned db uid := by
  obtain ⟨-, -, hw⟩ := assignWorker_ok_shape db actor pid wid dep eta db' p' hok
  constructor
  · unfold workerAssigned at hworker ⊢
    rw [hw, find?_map_bumpAssigned]
    obtain ⟨w, hfind, hn⟩ := Option.map_eq_some'.mp hworker
    have hpw : (w.user_id == wid) = true := by
      have := List.find?_some hfind
      simpa using this
    rw [hfind]
    simp only [Option.map_some']
    unfold bumpAssigned
    rw [hpw]
    simp [hn]
  · intro uid hne
    unfold workerAssigned
    rw [hw, find?_map_bumpAssigned]
    cases hf : db.workers.find? (fun w => w.user_id == uid) with
    | none => rfl
    | some w' =>
      have huid : (w'.user_id == uid) = true := by
        have := List.find?_some hf
        simpa using this
      have hid : w'.user_id = uid := by simpa using huid
      have hfalse : (w'.user_id == wid) = false := by
        simp only [hid, beq_eq_false_iff_ne, ne_eq]
        exact hne
      have hb : bumpAssigned wid w' = w' := by
        unfold bumpAssigned
        simp [hfalse]
      simp [hb]

/-- Concrete complaint used to witness C5: exists, not yet completed. -/
def C5p : Problem :=
  { id := 1, user_id := 2, problem_categories := ["Garbage & Waste"], others_text := none,
    user_image := "u", user_image_mimetype := "image/png", admin_image := none,
    admin_image_mimetype := none, latitude := 0, longitude := 0,
    status := "not completed", priority := "medium", assigned_worker_id := none,
    assigned_department := none, estimated_completion := none, completion_notes := none,
    created_at := 10, updated_at := 10 }

/-- Concrete database used to witness C5: one open complaint, one field-worker
with a ledger row holding `total_assigned = 3`. -/
def C5db : DB :=
  { problems := [C5p], history := [⟨1, "not completed", 2, some "Problem submitted", 10⟩],
    workers := [⟨7, 3, 0⟩], users := [⟨7, "field-worker", none⟩], nextId := 2, now := 20 }

/-- A district magistrate actor. -/
def C5dm : Actor := ⟨1, "district-magistrate", none⟩

/-- Witness for C5: assigning worker 7 to complaint 1 in `C5db` bumps the
ledger counter from 3 to exactly 4. -/
theorem C5_witness :
    workerAssigned (runDB C5db (assignWorker C5db C5dm 1 7 none none)) 7 = some 4 := by
  have h := C5_assign_increments_total_assigned C5db C5dm 1 7 none none
      (runDB C5db (assignWorker C5db C5dm 1 7 none none))
      (probOf (assignWorker C5db C5dm 1 7 none none) C5p) 3
      (by rfl) (by rfl) (by decide) (by rfl)
  exact h.1

/-- C7: a createComplaint request whose latitude parses to a value outside
[-90, 90] always fails with a 400 validation error, and the database is left
untouched (no complaint row, no history row). -/
theorem C7_bad_latitude_rejected (db : DB) (req : CreateReq) (lat : Rat)
    (hlat : req.latitude = some lat) (hout : lat < -90 ∨ lat > 90) :
    (∃ msg, createComplaint db req = .error (.validation msg)) ∧
    runDB db (createComplaint db req) = db := by
  have key : ∃ msg, createComplaint db req = .error (.validation msg) := by
    obtain ⟨rep, file, rc, la, lo, ot, pr⟩ := req
    dsimp only at hlat
    subst hlat
    cases file with
    | none => exact ⟨_, rfl⟩
    | some fm =>
      obtain ⟨img, mime⟩ := fm
      cases rc with
      | none =>
        cases lo with
        | none => exact ⟨_, rfl⟩
        | some lng => exact ⟨_, rfl⟩
      | some rawCats =>
        cases lo with
        | none => exact ⟨_, rfl⟩
        | some lng =>
          refine ⟨"Latitude must be between -90 and 90", ?_⟩
          simp only [createComplaint]
          rw [if_pos hout]
  refine ⟨key, ?_⟩
  obtain ⟨msg, hmsg⟩ := key
  rw [hmsg]
  rfl

/-- Request used to witness C7: latitude 95, everything else well-formed. -/
def C7req : CreateReq :=
  { reporter := 2, file := some ("u", "image/png"),
    rawCategories := some (some ["Garbage & Waste"]),
    latitude := some 95, longitude := some 80, others_text := none,
    priority := "medium" }

/-- Empty database used to witness C7. -/
def C7db : DB :=
  { problems := [], history := [], workers := [], users := [], nextId := 1, now := 5 }

/-- Witness for C7: latitude 95 is rejected with a validation error and the
empty database stays empty. -/
theorem C7_witness :
    (∃ msg, createComplaint C7db C7req = .error (.validation msg)) ∧
    runDB C7db (createComplaint C7db C7req) = C7db :=
  C7_bad_latitude_rejected C7db C7req 95 (by rfl) (Or.inr (by norm_num))

/-- C8: both the short label "Garbage & Waste" and its full descriptive
variant pass every department-head's row filter of GET /api/admin/problems,
so two complaints carrying them land in the same department-head's scoped
complaint view. -/
theorem C8_garbage_variants_same_view
    (db : DB) (actor : Actor) (p1 p2 : Problem)
    (hrole : actor.role = "department-head")
    (hp1 : p1 ∈ db.problems) (hp2 : p2 ∈ db.problems)
    (hc1 : p1.problem_categories = ["Garbage & Waste"])
    (hc2 : p2.problem_categories
      = ["Garbage & Waste (roadside dumps, no dustbins, poor segregation)"]) :
    ∃ l, listProblemsAdmin db actor = .ok l ∧ p1 ∈ l ∧ p2 ∈ l := by
  have hcontains : adminRoles.contains actor.role = true := by
    rw [hrole]
    rfl
  have hs1 : deptScope actor.department p1 = true := by
    unfold deptScope
    rw [hc1]
    have hg : (["Garbage & Waste"].any fun c => strContains c "Garbage") = true := by decide
    simp [hg]
  have hs2 : deptScope actor.department p2 = true := by
    unfold deptScope
    rw [hc2]
    have hg : (["Garbage & Waste (roadside dumps, no dustbins, poor segregation)"].any
        fun c => strContains c "Garbage") = true := by decide
    simp [hg]
  refine ⟨db.problems.filter (deptScope actor.department), ?_, ?_, ?_⟩
  · unfold listProblemsAdmin
    rw [hcontains, hrole]
    rfl
  · exact List.mem_filter.mpr ⟨hp1, hs1⟩
  · exact List.mem_filter.mpr ⟨hp2, hs2⟩

/-- First complaint of the C8 witness: the short category label. -/
def C8p1 : Problem := { C5p with id := 1, problem_categories := ["Garbage & Waste"] }

/-- Second complaint of the C8 witness: the full descriptive label. -/
def C8p2 : Problem :=
  { C5p with
      id := 2,
      problem_categories :=
        ["Garbage & Waste (roadside dumps, no dustbins, poor segregation)"] }

/-- Database used to witness C8: two complaints, one per category variant. -/
def C8db : DB :=
  { problems := [C8p1, C8p2],
    history := [], workers := [], users := [], nextId := 3, now := 20 }

/-- A department-head actor for the witness of C8. -/
def C8head : Actor := ⟨3, "department-head", some "सफाई विभाग"⟩

/-- Witness for C8: in `C8db` the department head sees both variants in one
scoped listing. -/
theorem C8_witness :
    ∃ l, listProblemsAdmin C8db C8head = .ok l ∧ C8p1 ∈ l ∧ C8p2 ∈ l :=
  C8_garbage_variants_same_view C8db C8head C8p1 C8p2
    (by rfl) (by simp [C8db]) (by simp [C8db]) (by rfl) (by rfl)

/-- C9: for either dashboard-eligible actor role, when the actor's scope
filter selects no complaints the dashboard returns the well-formed zero
result (0 totals, 0 average resolution days, empty category breakdown)
instead of an error. -/
theorem C9_dashboard_empty_scope
    (db : DB) (actor : Actor)
    (hrole : actor.role = "district-magistrate" ∨ actor.role = "department-head")
    (hempty : db.problems.filter (dashScope actor) = []) :
    getDashboardAnalytics db actor = .ok ⟨0, 0, 0, 0, 0, []⟩ := by
  have hcontains : assignRoles.contains actor.role = true := by
    cases hrole with
    | inl h => rw [h]; rfl
    | inr h => rw [h]; rfl
  unfold getDashboardAnalytics
  rw [hcontains, hempty]
  rfl

/-- Database used to witness C9: no complaints at all. -/
def C9db : DB :=
  { problems := [], history := [], workers := [], users := [], nextId := 1, now := 5 }

/-- Witness for C9: the district magistrate's dashboard over the empty
database is the zero-filled analytics object. -/
theorem C9_witness :
    getDashboardAnalytics C9db C5dm = .ok ⟨0, 0, 0, 0, 0, []⟩ :=
  C9_dashboard_empty_scope C9db C5dm (Or.inl (by rfl)) (by rfl)

/-- Request used to witness C10: a fully well-formed creation request. -/
def C10req : CreateReq :=
  { reporter := 2, file := some ("u", "image/png"),
    rawCategories := some (some ["Garbage & Waste"]),
    latitude := some 26, longitude := some 80,
    others_text := none, priority := "medium" }

/-- C10: a successful complaint creation yields status `'not completed'` and,
when the fresh id is unused in the history table, the new complaint's history
is exactly the one initial entry recorded by the reporter. -/
theorem C10_create_initial_state
    (db : DB) (req : CreateReq) (db' : DB) (p : Problem)
    (hfresh : ∀ h ∈ db.history, h.problem_id ≠ db.nextId)
    (hok : createComplaint db req = .ok (db', p)) :
    p.status = "not completed" ∧
    db'.history.filter (fun h => h.problem_id == p.id)
      = [⟨p.id, "not completed", req.reporter, some "Problem submitted", db.now⟩] := by
  obtain ⟨hstat, hid, -, -, hhist, -⟩ := createComplaint_ok_shape db req db' p hok
  refine ⟨hstat, ?_⟩
  rw [hhist, hid, List.filter_append]
  have hnil : db.history.filter (fun h => h.problem_id == db.nextId) = [] := by
    rw [List.filter_eq_nil_iff]
    intro a ha
    simpa using hfresh a ha
  rw [hnil]
  simp

/-- Witness for C10: creating a complaint in the empty database `C9db` via a
well-formed request leaves a `'not completed'` complaint whose history is the
single submission entry. -/
theorem C10_witness :
    (probOf (createComplaint C9db C10req) C5p).status = "not completed" ∧
    (runDB C9db (createComplaint C9db C10req)).history.filter
        (fun h => h.problem_id == (probOf (createComplaint C9db C10req) C5p).id)
      = [⟨(probOf (createComplaint C9db C10req) C5p).id, "not completed",
           C10req.reporter, some "Problem submitted", C9db.now⟩] :=
  C10_create_initial_state C9db C10req
    (runDB C9db (createComplaint C9db C10req))
    (probOf (createComplaint C9db C10req) C5p)
    (by intro h hh; simp [C9db] at hh) (by rfl)

lemma all_map_ite_pred (l : List Problem) (pid : Nat) (p' : Problem)
    (pred : Problem → Bool)
    (hl : l.all pred = true) (hp' : pred p' = true) :
    (l.map (fun q => if q.id == pid then p' else q)).all pred = true := by
  rw [List.all_map, List.all_eq_true]
  rw [List.all_eq_true] at hl
  intro q hq
  dsimp only [Function.comp]
  split
  · exact hp'
  · exact hl q hq

/-- Counterexample to C1: in `C5db` the completion-evidence invariant holds,
yet a PATCH that sets `status := 'completed'` succeeds without any completion
image, leaving a completed complaint with no evidence — so the invariant is
not preserved by patch-status. -/
theorem C1_counterexample :
    completedHasEvidence C5db = true ∧
    exceptOk (patchProblem C5db C5dm 1 (some "completed") none none) = true ∧
    completedHasEvidence (runDB C5db (patchProblem C5db C5dm 1 (some "completed") none none))
      = false :=
  ⟨rfl, rfl, rfl⟩

/-- C1 (amended): the completion-evidence invariant (status completed implies
a completion image is present) is preserved by complaint creation, worker
assignment and mark-complete; patch-status is excluded, since it can set
status to completed without evidence. -/
theorem C1_amended_invariant_preserved
    (db : DB) (req : CreateReq) (creq : CompleteReq) (actor : Actor)
    (pid wid : Nat) (dep : Option String) (eta : Option Nat)
    (dbc dba dbm : DB) (pc pa pm : Problem)
    (hinv : completedHasEvidence db = true)
    (hcreate : createComplaint db req = .ok (dbc, pc))
    (hassign : assignWorker db actor pid wid dep eta = .ok (dba, pa))
    (hcomplete : markComplete db creq = .ok (dbm, pm)) :
    completedHasEvidence dbc = true ∧ completedHasEvidence dba = true ∧
    completedHasEvidence dbm = true := by
  obtain ⟨hcs, -, -, hcp, -, -⟩ := createComplaint_ok_shape db req dbc pc hcreate
  obtain ⟨has, hap, -⟩ := assignWorker_ok_shape db actor pid wid dep eta dba pa hassign
  obtain ⟨hms, hmi, hmp, -⟩ := markComplete_ok_shape db creq dbm pm hcomplete
  unfold completedHasEvidence at hinv ⊢
  refine ⟨?_, ?_, ?_⟩
  · rw [hcp, List.all_append, hinv]
    simp [hcs]
  · rw [hap]
    apply all_map_ite_pred _ _ _ _ hinv
    simp [has]
  · rw [hmp]
    apply all_map_ite_pred _ _ _ _ hinv
    simp [hms, hmi]

/-- Mark-complete request used by several witnesses (issued by the district
magistrate with a completion image). -/
def CWcreq : CompleteReq := ⟨C5dm, 1, some ("done", "image/png"), none⟩

/-- Witness for the amended C1: on `C5db` all three invariant-preserving
operations succeed and each resulting database still satisfies the
completion-evidence invariant. -/
theorem C1_amended_witness :
    completedHasEvidence (runDB C5db (createComplaint C5db C10req)) = true ∧
    completedHasEvidence (runDB C5db (assignWorker C5db C5dm 1 7 none none)) = true ∧
    completedHasEvidence (runDB C5db (markComplete C5db CWcreq)) = true :=
  C1_amended_invariant_preserved C5db C10req CWcreq C5dm 1 7 none none
    (runDB C5db (createComplaint C5db C10req))
    (runDB C5db (assignWorker C5db C5dm 1 7 none none))
    (runDB C5db (markComplete C5db CWcreq))
    (probOf (createComplaint C5db C10req) C5p)
    (probOf (assignWorker C5db C5dm 1 7 none none) C5p)
    (probOf (markComplete C5db CWcreq) C5p)
    (by rfl) (by rfl) (by rfl) (by rfl)

/-- A complaint that is already completed, with completion evidence. -/
def C2p : Problem :=
  { C5p with status := "completed", admin_image := some "done",
             admin_image_mimetype := some "image/png", completion_notes := some "ok" }

/-- Database whose single complaint is completed. -/
def C2db : DB := { C5db with problems := [C2p] }

/-- Counterexample to C2: assigning a worker to the already-completed
complaint of `C2db` succeeds and moves its status back to `'in-progress'`
(the assigned state) — completed is not terminal under assign-worker. -/
theorem C2_counterexample :
    C2p.status = "completed" ∧
    exceptOk (assignWorker C2db C5dm 1 7 none none) = true ∧
    (runDB C2db (assignWorker C2db C5dm 1 7 none none)).problems.map (fun p => p.status)
      = ["in-progress"] :=
  ⟨rfl, rfl, rfl⟩

/-- C2 (amended): of the three mutation operations only mark-complete never
moves a complaint out of `completed`: every problem in its result either is
completed or is an untouched row of the input; assign-worker and patch-status
can move a completed complaint back to an earlier state. -/
theorem C2_amended_complete_never_reverts
    (db : DB) (creq : CompleteReq) (db' : DB) (p' : Problem)
    (hok : markComplete db creq = .ok (db', p')) :
    ∀ q ∈ db'.problems, q.status = "completed" ∨ q ∈ db.problems := by
  obtain ⟨hms, -, hmp, -⟩ := markComplete_ok_shape db creq db' p' hok
  intro q hq
  rw [hmp] at hq
  obtain ⟨x, hx, hfx⟩ := List.mem_map.mp hq
  by_cases hxid : (x.id == creq.problem_id) = true
  · left
    rw [← hfx]
    simp only [hxid, if_true]
    exact hms
  · right
    rw [← hfx]
    rw [if_neg hxid]
    exact hx

/-- Mark-complete request on the completed complaint of `C2db`. -/
def C2creq : CompleteReq := ⟨C5dm, 1, some ("again", "image/png"), none⟩

/-- Witness for the amended C2: re-completing the completed complaint of
`C2db` yields a row that is still completed. -/
theorem C2_amended_witness :
    (probOf (markComplete C2db C2creq) C5p).status = "completed" ∨
    (probOf (markComplete C2db C2creq) C5p) ∈ C2db.problems :=
  C2_amended_complete_never_reverts C2db C2creq
    (runDB C2db (markComplete C2db C2creq))
    (probOf (markComplete C2db C2creq) C5p)
    (by rfl)
    (probOf (markComplete C2db C2creq) C5p)
    (by decide)

/-- A field-worker actor who is not the complaint's assigned worker. -/
def C4fw : Actor := ⟨5, "field-worker", none⟩

/-- A complaint assigned to worker 7 (not to `C4fw`). -/
def C4p : Problem := { C5p with assigned_worker_id := some 7, status := "in-progress" }

/-- Database whose single complaint is assigned to worker 7. -/
def C4db : DB := { C5db with problems := [C4p] }

/-- Mark-complete request issued by `C4fw` on a complaint assigned to a
different worker. -/
def C4creq : CompleteReq := ⟨C4fw, 1, some ("img", "image/png"), none⟩

/-- Counterexample to C4: field-worker 5 marks complete a complaint assigned
to worker 7 — the actor is outside its scope predicate
(`assignedWorker == actor.id`), yet the operation succeeds and mutates the
complaint instead of failing with an authorization error. -/
theorem C4_counterexample :
    C4p.assigned_worker_id = some 7 ∧ C4creq.actor.id = 5 ∧
    C4creq.actor.role = "field-worker" ∧
    exceptOk (markComplete C4db C4creq) = true ∧
    (runDB C4db (markComplete C4db C4creq)).problems.map (fun p => p.status)
      = ["completed"] :=
  ⟨rfl, rfl, rfl, rfl, rfl⟩

/-- C4 (amended): only the per-operation role whitelist is enforced: each
mutation fails with the 403 authorization error and leaves the database
unchanged exactly when the actor's role is outside that operation's own
whitelist (assign-worker checks the two-role list, complete and patch the
three-role list); the per-complaint scope predicate is not checked for
mutations. -/
theorem C4_amended_role_whitelist_enforced
    (db : DB) (actor : Actor) (pid wid : Nat) (dep : Option String) (eta : Option Nat)
    (file : Option (String × String)) (cnotes status priority notes : Option String) :
    (assignRoles.contains actor.role = false →
      assignWorker db actor pid wid dep eta
        = .error (.authorization "Unauthorized access") ∧
      runDB db (assignWorker db actor pid wid dep eta) = db) ∧
    (adminRoles.contains actor.role = false →
      markComplete db ⟨actor, pid, file, cnotes⟩
        = .error (.authorization "Unauthorized access") ∧
      patchProblem db actor pid status priority notes
        = .error (.authorization "Unauthorized access") ∧
      runDB db (markComplete db ⟨actor, pid, file, cnotes⟩) = db ∧
      runDB db (patchProblem db actor pid status priority notes) = db) := by
  constructor
  · intro h1
    have ha : assignWorker db actor pid wid dep eta
        = .error (.authorization "Unauthorized access") := by
      unfold assignWorker
      rw [h1]
      rfl
    refine ⟨ha, ?_⟩
    rw [ha]
    rfl
  · intro h2
    have hm : markComplete db ⟨actor, pid, file, cnotes⟩
        = .error (.authorization "Unauthorized access") := by
      unfold markComplete
      rw [show (⟨actor, pid, file, cnotes⟩ : CompleteReq).actor = actor from rfl, h2]
      rfl
    have hp : patchProblem db actor pid status priority notes
        = .error (.authorization "Unauthorized access") := by
      unfold patchProblem
      rw [h2]
      rfl
    refine ⟨hm, hp, ?_, ?_⟩
    · rw [hm]; rfl
    · rw [hp]; rfl

/-- A citizen actor (outside every mutation whitelist). -/
def C4cit : Actor := ⟨9, "citizen", none⟩

/-- Witness for the amended C4: field-worker 5 (outside assign-worker's
two-role whitelist — the spec's own scenario) gets the 403 on assign with no
side effect, and a citizen gets the 403 with no side effect on complete and
patch. -/
theorem C4_amended_witness :
    (assignWorker C4db C4fw 1 7 none none
        = .error (.authorization "Unauthorized access") ∧
      runDB C4db (assignWorker C4db C4fw 1 7 none none) = C4db) ∧
    (markComplete C4db ⟨C4cit, 1, some ("img", "image/png"), none⟩
        = .error (.authorization "Unauthorized access") ∧
      patchProblem C4db C4cit 1 (some "completed") none none
        = .error (.authorization "Unauthorized access") ∧
      runDB C4db (markComplete C4db ⟨C4cit, 1, some ("img", "image/png"), none⟩) = C4db ∧
      runDB C4db (patchProblem C4db C4cit 1 (some "completed") none none) = C4db) :=
  ⟨(C4_amended_role_whitelist_enforced C4db C4fw 1 7 none none
      (some ("img", "image/png")) none (some "completed") none none).1 (by rfl),
   (C4_amended_role_whitelist_enforced C4db C4cit 1 7 none none
      (some ("img", "image/png")) none (some "completed") none none).2 (by rfl)⟩

/-- Mark-complete request by the district magistrate on the complaint of
`C4db` (which is assigned to worker 7). -/
def C3creq : CompleteReq := ⟨C5dm, 1, some ("img", "image/png"), some "done"⟩

/-- C3 evaluated against the code: completing the complaint of `C4db`, which
is assigned to worker 7 whose ledger row is `⟨7, 3, 0⟩`, succeeds but leaves
the whole workers ledger unchanged — `total_completed` stays 0 instead of
being incremented to 1. -/
theorem C3_code_eval :
    C4p.assigned_worker_id = some 7 ∧
    C4db.workers = [⟨7, 3, 0⟩] ∧
    exceptOk (markComplete C4db C3creq) = true ∧
    (runDB C4db (markComplete C4db C3creq)).workers = [⟨7, 3, 0⟩] :=
  ⟨rfl, rfl, rfl, rfl⟩

/-- C6 evaluated against the code: patching the `'not completed'` complaint
of `C5db` with the very same status `'not completed'` appends a history entry
(length grows by one) even though the status did not change, while a
priority-only patch appends none. -/
theorem C6_code_eval :
    C5p.status = "not completed" ∧
    (runDB C5db (patchProblem C5db C5dm 1 (some "not completed") none none)).history.length
      = C5db.history.length + 1 ∧
    (runDB C5db (patchProblem C5db C5dm 1 none (some "high") none)).history.length
      = C5db.history.length :=
  ⟨rfl, rfl, rfl⟩
